import Mathlib

/-!
Shallow embedding of the registration/activation engine of this repository:
`src/services/registration_service.py` (the engine), `src/core/utils.py`
(code generation, TTL), `src/core/models.py` (entities),
`src/infrastructure/db/user_repository.py` and
`src/infrastructure/db/activation_token_repository.py` (the stores,
abstracted from SQL to list-backed tables), and the error/response mapping
of `src/api/main.py`.  UUIDs are modelled as `Nat` identifiers and
timestamps as `Int` seconds; the nondeterministic inputs the Python code
draws from its environment (fresh uuid, random code draw, the clock, the
notify callback's behaviour) are explicit parameters.
-/

namespace Registration

/-- Modelled from the spec: `src/core/enums.py` is not under `src/`; the spec
defines `status (enum: PENDING | ACTIVE)`. -/
inductive UserStatus where
  | PENDING
  | ACTIVE
deriving DecidableEq, Repr

/-- Modelled from the spec: `src/services/exceptions.py` is not under `src/`.
The spec's error taxonomy together with the raise sites visible under `src/`:
`UserAlreadyExists`, `InvalidTokenError`, `UserAlreadyActive` raised by the
service; `ValueError` raised by the repositories on an integrity violation;
and an arbitrary failure raised by the notify callback.  Each error carries
its message string, which `src/api/main.py` forwards as the response detail. -/
inductive RegError where
  | userAlreadyExists (msg : String)
  | invalidTokenError (msg : String)
  | userAlreadyActive (msg : String)
  | valueError (msg : String)
  | notifyFailure (msg : String)
deriving DecidableEq, Repr

/-- Model `User` of `src/core/models.py`. -/
structure User where
  id : Nat
  email : String
  password_hash : String
  status : UserStatus
  created_at : Int
  updated_at : Option Int
deriving DecidableEq, Repr

/-- Model `ActivationToken` of `src/core/models.py`. -/
structure ActivationToken where
  user_id : Nat
  code : String
  created_at : Int
deriving DecidableEq, Repr

/-- The persisted state owned by the store collaborator: the `users` and
`activation_tokens` tables, as rows in insertion order. -/
structure Store where
  users : List User
  tokens : List ActivationToken
deriving DecidableEq, Repr

/-- Embeds `PostgresUserRepository.find_by_email`: `SELECT ... WHERE email = %s`. -/
def find_by_email (s : Store) (email : String) : Option User :=
  s.users.find? (fun u => u.email == email)

/-- Whether a row with this email exists (the `users.email` uniqueness
constraint consulted by the database on INSERT). -/
def email_taken (s : Store) (email : String) : Bool :=
  s.users.any (fun u => u.email == email)

/-- Whether a row with this id exists (the `users.id` uniqueness constraint
consulted by the database on INSERT). -/
def id_taken (s : Store) (i : Nat) : Bool :=
  s.users.any (fun u => u.id == i)

/-- Embeds `PostgresUserRepository.create_user`: INSERT RETURNING; a uniqueness
(IntegrityError) violation is rolled back and re-raised as
`ValueError("User with email {email} already exists")`. -/
def create_user (s : Store) (u : User) : Except RegError (User × Store) :=
  if email_taken s u.email || id_taken s u.id then
    .error (.valueError ("User with email " ++ u.email ++ " already exists"))
  else
    .ok (u, { s with users := s.users ++ [u] })

/-- Embeds `PostgresUserRepository.update_user_status`:
`UPDATE users SET status = %s, updated_at = NOW() WHERE id = %s`, returning
the updated store and `rowcount > 0`. -/
def update_user_status (s : Store) (user_id : Nat) (status : UserStatus)
    (now : Int) : Store × Bool :=
  ({ s with
      users := s.users.map (fun u =>
        if u.id = user_id then
          { u with status := status, updated_at := some now }
        else u) },
    s.users.any (fun u => u.id == user_id))

/-- Whether an activation token row for this user exists (the token table's
per-user uniqueness consulted by the database on INSERT; the spec:
`one active token per user in steady state`). -/
def token_user_taken (s : Store) (user_id : Nat) : Bool :=
  s.tokens.any (fun t => t.user_id == user_id)

/-- Embeds `PostgresActivationTokenRepository.create_activation_token`: INSERT
RETURNING; an IntegrityError is rolled back and re-raised as
`ValueError("Activation token already exists")`. -/
def create_activation_token (s : Store) (t : ActivationToken) :
    Except RegError (ActivationToken × Store) :=
  if token_user_taken s t.user_id then
    .error (.valueError "Activation token already exists")
  else
    .ok (t, { s with tokens := s.tokens ++ [t] })

/-- Embeds `PostgresActivationTokenRepository.find_by_user_id_and_code`:
`SELECT ... WHERE user_id = %s AND code = %s`. -/
def find_by_user_id_and_code (s : Store) (user_id : Nat) (code : String) :
    Option ActivationToken :=
  s.tokens.find? (fun t => t.user_id == user_id && t.code == code)

/-- Embeds `PostgresActivationTokenRepository.delete_activation_token`:
`DELETE FROM activation_tokens WHERE user_id = %s`, returning the updated
store and `rowcount > 0`. -/
def delete_activation_token (s : Store) (user_id : Nat) : Store × Bool :=
  ({ s with tokens := s.tokens.filter (fun t => !(t.user_id == user_id)) },
    s.tokens.any (fun t => t.user_id == user_id))

/-- Constant `CODE_LENGTH` of `src/core/utils.py`. -/
def CODE_LENGTH : Nat := 4

/-- Constant `ACTIVATION_TOKEN_TTL_SECONDS = 15 * 60` of `src/core/utils.py`. -/
def ACTIVATION_TOKEN_TTL_SECONDS : Int := 15 * 60

/-- Fuel-driven decimal-digit extraction (most significant digit first).
The fuel only bounds the recursion depth; `n` itself is always enough fuel,
since the number of decimal digits of `n ≥ 1` never exceeds `n`. -/
def decimalDigitsAux (fuel n : Nat) : List Nat :=
  match fuel with
  | 0 => []
  | fuel + 1 => if n = 0 then [] else decimalDigitsAux fuel (n / 10) ++ [n % 10]

/-- The decimal digits of `n`, most significant first (`[]` for `0`):
the digit sequence of Python's `str(n)` for a nonzero natural. -/
def decimalDigits (n : Nat) : List Nat :=
  decimalDigitsAux n n

/-- Python's `str(n)` for a natural number `n`: its decimal representation. -/
def str_of_nat (n : Nat) : String :=
  if n = 0 then "0"
  else String.mk ((decimalDigits n).map (fun d => Char.ofNat (48 + d)))

/-- Python's `str.zfill(length)` for a digit string: pad on the left with
`'0'` up to `length` characters. -/
def zfill (length : Nat) (s : String) : String :=
  if length ≤ s.length then s
  else String.mk (List.replicate (length - s.length) '0') ++ s

/-- Embeds `generate_activation_code` of `src/core/utils.py`:
`str(secrets.randbelow(10**length)).zfill(length)`.  The secure random draw
`n < 10^length` is passed explicitly. -/
def generate_activation_code (n : Nat) (length : Nat) : String :=
  zfill length (str_of_nat n)

/-- Embeds `hash_password` of `src/core/utils.py`, which delegates to bcrypt,
an external collaborator the spec treats as an opaque one-way function; no
claim depends on the digest's content, only on its being stored, so it is
modelled as an opaque tagging of the plaintext. -/
def hash_password (password : String) : String :=
  "$2b$12$" ++ password

/-- Result of one `RegistrationService.register_user` call: the returned
user or raised error, the store it leaves behind, and the `(email, code)`
invocations of the `background_tasks` callback it performed. -/
structure RegisterOutcome where
  result : Except RegError User
  store : Store
  notified : List (String × String)
deriving Repr

/-- Result of one `RegistrationService.activate_user` call. -/
structure ActivateOutcome where
  result : Except RegError User
  store : Store
deriving Repr

/-- Steps 2-6 of `RegistrationService.register_user` (everything after the
duplicate-email check): hash, create the user row, generate and persist the
activation token, invoke the notify callback, return the created user.
`notifyOutcome` is what the `background_tasks` callable does when invoked
(returns, or raises an error the engine does not catch). -/
def register_create_phase (s : Store) (email password : String)
    (new_id code_draw : Nat) (now : Int)
    (notifyOutcome : Except RegError Unit) : RegisterOutcome :=
  let hashed_password := hash_password password
  let new_user : User :=
    { id := new_id, email := email, password_hash := hashed_password,
      status := UserStatus.PENDING, created_at := now, updated_at := none }
  match create_user s new_user with
  | .error e => { result := .error e, store := s, notified := [] }
  | .ok (created_user, s₁) =>
    let activation_code := generate_activation_code code_draw CODE_LENGTH
    let activation_token : ActivationToken :=
      { user_id := created_user.id, code := activation_code,
        created_at := now }
    match create_activation_token s₁ activation_token with
    | .error e => { result := .error e, store := s₁, notified := [] }
    | .ok (_, s₂) =>
      match notifyOutcome with
      | .error e =>
          { result := .error e, store := s₂,
            notified := [(created_user.email, activation_code)] }
      | .ok _ =>
          { result := .ok created_user, store := s₂,
            notified := [(created_user.email, activation_code)] }

/-- Embeds `RegistrationService.register_user`.  Here `new_id` is the fresh uuid drawn by
the `User` model default, `code_draw` the secure random draw of
`generate_activation_code`, `now` the clock. -/
def register_user (s : Store) (email password : String)
    (new_id code_draw : Nat) (now : Int)
    (notifyOutcome : Except RegError Unit) : RegisterOutcome :=
  match find_by_email s email with
  | some _ =>
      { result :=
          .error (.userAlreadyExists
            "An account with this email already exists."),
        store := s, notified := [] }
  | none =>
      register_create_phase s email password new_id code_draw now
        notifyOutcome

/-- Runs `RegistrationService.register_user` with a concurrent registration for
the same email landing between the engine's `find_by_email` check (which
reads `s`) and its `create_user` call (which therefore runs on the store
extended with the racer's row) — the race the store's uniqueness constraint
is there to catch. -/
def register_user_raced (s : Store) (racer : User) (email password : String)
    (new_id code_draw : Nat) (now : Int)
    (notifyOutcome : Except RegError Unit) : RegisterOutcome :=
  match find_by_email s email with
  | some _ =>
      { result :=
          .error (.userAlreadyExists
            "An account with this email already exists."),
        store := s, notified := [] }
  | none =>
      register_create_phase { s with users := s.users ++ [racer] } email
        password new_id code_draw now notifyOutcome

/-- Embeds `RegistrationService.activate_user`. -/
def activate_user (s : Store) (email code : String) (now : Int) :
    ActivateOutcome :=
  match find_by_email s email with
  | none =>
      { result :=
          .error (.invalidTokenError "Invalid email or activation code."),
        store := s }
  | some user =>
    if user.status = UserStatus.ACTIVE then
      { result := .error (.userAlreadyActive "User account is already active."),
        store := s }
    else
      match find_by_user_id_and_code s user.id code with
      | none =>
          { result :=
              .error (.invalidTokenError "Invalid email or activation code."),
            store := s }
      | some token =>
        if now - token.created_at > ACTIVATION_TOKEN_TTL_SECONDS then
          { result := .error (.invalidTokenError "Activation token has expired."),
            store := (delete_activation_token s user.id).1 }
        else
          let activated : User :=
            { user with status := UserStatus.ACTIVE, updated_at := some now }
          let s₁ := (update_user_status s user.id UserStatus.ACTIVE now).1
          let s₂ := (delete_activation_token s₁ user.id).1
          { result := .ok activated, store := s₂ }

/-- The `/register` endpoint's exception mapping in `src/api/main.py`:
success → 201 Created, `UserAlreadyExists` → 409 Conflict, any other
exception → 500 Internal Server Error. -/
def register_http_status (r : Except RegError User) : Nat :=
  match r with
  | .ok _ => 201
  | .error (.userAlreadyExists _) => 409
  | .error _ => 500

/-- The `/activate` endpoint's mapping in `src/api/main.py`: success → 200;
`InvalidTokenError` and `UserAlreadyActive` → 400 with `detail = str(e)`;
any other exception → 500 with `detail = str(e)`. -/
def activate_http (r : Except RegError User) : Nat × String :=
  match r with
  | .ok _ => (200, "")
  | .error (.invalidTokenError m) => (400, m)
  | .error (.userAlreadyActive m) => (400, m)
  | .error (.userAlreadyExists m) => (500, m)
  | .error (.valueError m) => (500, m)
  | .error (.notifyFailure m) => (500, m)

/-- Outcome of the deployed `/register` endpoint: the HTTP status of the
response, the store, and the background email sends executed after the
response, each paired with its outcome. -/
structure EndpointOutcome where
  status : Nat
  store : Store
  sent : List ((String × String) × Bool)
deriving Repr

/-- The `/register` endpoint of `src/api/main.py`: the notify callback it
passes to the engine is `background_tasks.add_task(send_email_task, ...)`,
which only enqueues and cannot fail — so the engine runs with
`notifyOutcome = .ok ()` — and the enqueued sends execute only after the
response is produced, each with outcome `send_ok` (the email service
returning or failing), which the endpoint never consults. -/
def register_endpoint (s : Store) (email password : String)
    (new_id code_draw : Nat) (now : Int) (send_ok : Bool) : EndpointOutcome :=
  let r := register_user s email password new_id code_draw now (.ok ())
  { status := register_http_status r.result,
    store := r.store,
    sent := r.notified.map (fun task => (task, send_ok)) }

/-- The only status transition the spec and the engine allow:
PENDING may stay or move to ACTIVE; ACTIVE is terminal. -/
def statusLe (a b : UserStatus) : Prop :=
  a = b ∨ (a = UserStatus.PENDING ∧ b = UserStatus.ACTIVE)



/-! ### Basic facts about the embedded repository operations -/

lemma statusLe_refl (a : UserStatus) : statusLe a a := Or.inl rfl

lemma statusLe_active (a : UserStatus) : statusLe a UserStatus.ACTIVE := by
  cases a
  · exact Or.inr ⟨rfl, rfl⟩
  · exact Or.inl rfl

lemma forall₂_refl_users (l : List User) :
    List.Forall₂
      (fun u v => v.id = u.id ∧ v.email = u.email ∧ statusLe u.status v.status)
      l l :=
  List.forall₂_same.2 (fun _ _ => ⟨rfl, rfl, statusLe_refl _⟩)

lemma email_taken_eq_false {s : Store} {email : String}
    (h : find_by_email s email = none) : email_taken s email = false := by
  rw [email_taken, List.any_eq_false]
  exact fun u hu => List.find?_eq_none.1 h u hu

lemma id_taken_eq_false {s : Store} {i : Nat}
    (h : ∀ u ∈ s.users, u.id ≠ i) : id_taken s i = false := by
  rw [id_taken, List.any_eq_false]
  intro u hu
  simp [h u hu]

lemma token_user_taken_eq_false {s : Store} {i : Nat}
    (h : ∀ t ∈ s.tokens, t.user_id ≠ i) : token_user_taken s i = false := by
  rw [token_user_taken, List.any_eq_false]
  intro t ht
  simp [h t ht]

lemma find_token_eq_none {s : Store} {uid : Nat} {code : String}
    (h : ∀ t ∈ s.tokens, t.user_id = uid → t.code ≠ code) :
    find_by_user_id_and_code s uid code = none := by
  rw [find_by_user_id_and_code, List.find?_eq_none]
  intro t ht
  simp only [Bool.and_eq_true, beq_iff_eq, not_and]
  exact h t ht

lemma find_token_some {s : Store} {uid : Nat} {code : String}
    {t : ActivationToken} (h : find_by_user_id_and_code s uid code = some t) :
    t ∈ s.tokens ∧ t.user_id = uid ∧ t.code = code := by
  have hmem := List.mem_of_find?_eq_some h
  have hp := List.find?_some h
  simp only [Bool.and_eq_true, beq_iff_eq] at hp
  exact ⟨hmem, hp.1, hp.2⟩

lemma find_token_delete (s : Store) (uid : Nat) (c : String) :
    find_by_user_id_and_code (delete_activation_token s uid).1 uid c = none := by
  apply find_token_eq_none
  intro t ht heq
  have hmem : t ∈ s.tokens.filter (fun t => !(t.user_id == uid)) := ht
  have := (List.mem_filter.1 hmem).2
  simp [heq] at this

lemma tokens_delete (s : Store) (uid : Nat) :
    ((delete_activation_token s uid).1).tokens =
      s.tokens.filter (fun t => !(t.user_id == uid)) := rfl

lemma users_delete (s : Store) (uid : Nat) :
    ((delete_activation_token s uid).1).users = s.users := rfl

lemma tokens_update (s : Store) (uid : Nat) (st : UserStatus) (now : Int) :
    ((update_user_status s uid st now).1).tokens = s.tokens := rfl

lemma find_by_email_append {s : Store} {email : String} {u : User}
    (tks : List ActivationToken) (h : find_by_email s email = none)
    (hu : u.email = email) :
    find_by_email { users := s.users ++ [u], tokens := tks } email = some u := by
  have hnone : s.users.find? (fun v => v.email == email) = none := h
  rw [find_by_email]
  show (s.users ++ [u]).find? (fun v => v.email == email) = some u
  rw [List.find?_append, hnone]
  simp [hu]

lemma find_token_append {s : Store} {uid : Nat} {code : String}
    (usrs : List User) (h : ∀ t ∈ s.tokens, t.user_id ≠ uid)
    {t : ActivationToken} (ht : t.user_id = uid) (hc : t.code = code) :
    find_by_user_id_and_code { users := usrs, tokens := s.tokens ++ [t] } uid
      code = some t := by
  have hnone : s.tokens.find? (fun x => x.user_id == uid && x.code == code)
      = none := by
    rw [List.find?_eq_none]
    intro x hx
    simp [h x hx]
  rw [find_by_user_id_and_code]
  show (s.tokens ++ [t]).find? (fun x => x.user_id == uid && x.code == code)
      = some t
  rw [List.find?_append, hnone]
  simp [ht, hc]

/-! ### Facts about the activation-code generator -/

lemma decimalDigitsAux_eq_digits {fuel : Nat} : ∀ {n : Nat}, n ≤ fuel →
    decimalDigitsAux fuel n = (Nat.digits 10 n).reverse := by
  induction fuel with
  | zero =>
      intro n hn
      have : n = 0 := Nat.le_zero.1 hn
      subst this
      simp [decimalDigitsAux]
  | succ fuel ih =>
      intro n hn
      by_cases h0 : n = 0
      · subst h0
        simp [decimalDigitsAux]
      · have hpos : 0 < n := Nat.pos_of_ne_zero h0
        have hdiv : n / 10 ≤ fuel := by
          have h1 : n / 10 < n := Nat.div_lt_self hpos (by norm_num)
          omega
        rw [Nat.digits_def' (by norm_num : (1:Nat) < 10) hpos]
        simp only [decimalDigitsAux, h0, if_false, List.reverse_cons]
        rw [ih hdiv]

/-- Sanity: the fuel-driven digit extraction agrees with `Nat.digits`. -/
lemma decimalDigits_eq_digits (n : Nat) :
    decimalDigits n = (Nat.digits 10 n).reverse :=
  decimalDigitsAux_eq_digits (Nat.le_refl n)

lemma decimalDigits_length {n k : Nat} (h : n < 10 ^ k) :
    (decimalDigits n).length ≤ k := by
  rw [decimalDigits_eq_digits, List.length_reverse]
  by_cases h0 : n = 0
  · simp [h0]
  · rw [Nat.digits_len 10 n (by norm_num) h0]
    have := Nat.log_lt_of_lt_pow h0 h
    omega

lemma decimalDigits_lt {n : Nat} : ∀ d ∈ decimalDigits n, d < 10 := by
  intro d hd
  rw [decimalDigits_eq_digits, List.mem_reverse] at hd
  exact Nat.digits_lt_base (by norm_num) hd

lemma str_of_nat_length {n k : Nat} (h : n < 10 ^ k) (hk : 1 ≤ k) :
    (str_of_nat n).length ≤ k := by
  rw [str_of_nat]
  by_cases h0 : n = 0
  · simp [h0]
    exact hk
  · simp only [h0, if_false]
    show ((decimalDigits n).map (fun d => Char.ofNat (48 + d))).length ≤ k
    rw [List.length_map]
    exact decimalDigits_length h

lemma str_of_nat_digits {n : Nat} :
    ∀ c ∈ (str_of_nat n).data, c.isDigit = true := by
  intro c hc
  rw [str_of_nat] at hc
  by_cases h0 : n = 0
  · simp [h0] at hc
    subst hc
    decide
  · simp only [h0, if_false] at hc
    have hc2 : c ∈ (decimalDigits n).map (fun d => Char.ofNat (48 + d)) := hc
    rcases List.mem_map.1 hc2 with ⟨d, hd, rfl⟩
    have hlt : d < 10 := decimalDigits_lt d hd
    interval_cases d <;> decide

lemma zfill_length {len : Nat} {s : String} (h : s.length ≤ len) :
    (zfill len s).length = len := by
  rw [zfill]
  by_cases hle : len ≤ s.length
  · rw [if_pos hle]
    omega
  · rw [if_neg hle]
    rw [String.length_append]
    show (List.replicate (len - s.length) '0').length + s.length = len
    rw [List.length_replicate]
    omega

lemma zfill_digits {len : Nat} {s : String}
    (h : ∀ c ∈ s.data, c.isDigit = true) :
    ∀ c ∈ (zfill len s).data, c.isDigit = true := by
  intro c hc
  rw [zfill] at hc
  by_cases hle : len ≤ s.length
  · rw [if_pos hle] at hc
    exact h c hc
  · rw [if_neg hle] at hc
    rw [String.data_append] at hc
    rcases List.mem_append.1 hc with hrep | hs
    · have : c = '0' := List.eq_of_mem_replicate hrep
      subst this
      decide
    · exact h c hs

lemma generate_activation_code_length {n : Nat} (h : n < 10 ^ CODE_LENGTH) :
    (generate_activation_code n CODE_LENGTH).length = 4 :=
  zfill_length (str_of_nat_length h (by norm_num [CODE_LENGTH]))

lemma generate_activation_code_digits (n : Nat) :
    ∀ c ∈ (generate_activation_code n CODE_LENGTH).data, c.isDigit = true :=
  zfill_digits str_of_nat_digits

/-! ### Branch characterisations of `activate_user` -/

lemma activate_not_found {s : Store} {email code : String} {now : Int}
    (h : find_by_email s email = none) :
    activate_user s email code now =
      { result := .error (.invalidTokenError "Invalid email or activation code."),
        store := s } := by
  simp [activate_user, h]

lemma activate_already_active {s : Store} {email code : String} {now : Int}
    {u : User} (h : find_by_email s email = some u)
    (ha : u.status = UserStatus.ACTIVE) :
    activate_user s email code now =
      { result := .error (.userAlreadyActive "User account is already active."),
        store := s } := by
  simp [activate_user, h, ha]

lemma activate_no_token {s : Store} {email code : String} {now : Int}
    {u : User} (h : find_by_email s email = some u)
    (ha : u.status ≠ UserStatus.ACTIVE)
    (ht : find_by_user_id_and_code s u.id code = none) :
    activate_user s email code now =
      { result := .error (.invalidTokenError "Invalid email or activation code."),
        store := s } := by
  simp [activate_user, h, ha, ht]

lemma activate_expired {s : Store} {email code : String} {now : Int}
    {u : User} {t : ActivationToken} (h : find_by_email s email = some u)
    (ha : u.status ≠ UserStatus.ACTIVE)
    (ht : find_by_user_id_and_code s u.id code = some t)
    (hexp : now - t.created_at > ACTIVATION_TOKEN_TTL_SECONDS) :
    activate_user s email code now =
      { result := .error (.invalidTokenError "Activation token has expired."),
        store := (delete_activation_token s u.id).1 } := by
  simp [activate_user, h, ha, ht, hexp]

lemma activate_success {s : Store} {email code : String} {now : Int}
    {u : User} {t : ActivationToken} (h : find_by_email s email = some u)
    (ha : u.status ≠ UserStatus.ACTIVE)
    (ht : find_by_user_id_and_code s u.id code = some t)
    (hexp : ¬ now - t.created_at > ACTIVATION_TOKEN_TTL_SECONDS) :
    activate_user s email code now =
      { result := .ok { u with status := UserStatus.ACTIVE, updated_at := some now },
        store := (delete_activation_token
          (update_user_status s u.id UserStatus.ACTIVE now).1 u.id).1 } := by
  simp [activate_user, h, ha, ht, hexp]

/-! ### Branch characterisations of `register_user` -/

lemma register_duplicate {s : Store} {email : String} {u : User}
    (h : find_by_email s email = some u) (password : String)
    (new_id code_draw : Nat) (now : Int)
    (notifyOutcome : Except RegError Unit) :
    register_user s email password new_id code_draw now notifyOutcome =
      { result := .error (.userAlreadyExists
          "An account with this email already exists."),
        store := s, notified := [] } := by
  simp [register_user, h]

lemma register_fresh {s : Store} {email : String} (password : String)
    {new_id : Nat} (code_draw : Nat) (now : Int)
    (notifyOutcome : Except RegError Unit)
    (h : find_by_email s email = none)
    (hid : ∀ u ∈ s.users, u.id ≠ new_id)
    (htok : ∀ t ∈ s.tokens, t.user_id ≠ new_id) :
    register_user s email password new_id code_draw now notifyOutcome =
      { result :=
          (match notifyOutcome with
          | .error e => .error e
          | .ok _ =>
              .ok { id := new_id,
                    email := email,
                    password_hash := hash_password password,
                    status := UserStatus.PENDING,
                    created_at := now,
                    updated_at := none }),
        store :=
          { users := s.users ++
              [{ id := new_id,
                 email := email,
                 password_hash := hash_password password,
                 status := UserStatus.PENDING,
                 created_at := now,
                 updated_at := none }],
            tokens := s.tokens ++
              [{ user_id := new_id,
                 code := generate_activation_code code_draw CODE_LENGTH,
                 created_at := now }] },
        notified := [(email,
          generate_activation_code code_draw CODE_LENGTH)] } := by
  have he2 : ¬ ∃ x ∈ s.users, x.email = email := by
    rintro ⟨x, hx, hxe⟩
    exact (List.find?_eq_none.1 h x hx) (by simp [hxe])
  have hi2 : ¬ ∃ x ∈ s.users, x.id = new_id := by
    rintro ⟨x, hx, hxe⟩
    exact hid x hx hxe
  have ht2 : ¬ ∃ x ∈ s.tokens, x.user_id = new_id := by
    rintro ⟨x, hx, hxe⟩
    exact htok x hx hxe
  cases notifyOutcome <;>
    simp [register_user, h, register_create_phase, create_user,
      create_activation_token, email_taken, id_taken, token_user_taken,
      he2, hi2, ht2]

lemma register_users_cases (s : Store) (email password : String)
    (new_id code_draw : Nat) (now : Int)
    (notifyOutcome : Except RegError Unit) :
    (register_user s email password new_id code_draw now
        notifyOutcome).store.users = s.users
    ∨ (register_user s email password new_id code_draw now
        notifyOutcome).store.users =
        s.users ++
          [{ id := new_id,
             email := email,
             password_hash := hash_password password,
             status := UserStatus.PENDING,
             created_at := now,
             updated_at := none }] := by
  cases hfe : find_by_email s email with
  | some u =>
      left
      rw [register_duplicate hfe password new_id code_draw now notifyOutcome]
  | none =>
      have hem : ¬ ∃ x ∈ s.users, x.email = email := by
        rintro ⟨x, hx, hxe⟩
        exact (List.find?_eq_none.1 hfe x hx) (by simp [hxe])
      by_cases hid : ∃ x ∈ s.users, x.id = new_id
      · left
        simp [register_user, hfe, register_create_phase, create_user,
          email_taken, id_taken, hem, hid]
      · by_cases htk : ∃ x ∈ s.tokens, x.user_id = new_id
        · right
          simp [register_user, hfe, register_create_phase, create_user,
            create_activation_token, email_taken, id_taken,
            token_user_taken, hem, hid, htk]
        · right
          cases notifyOutcome <;>
            simp [register_user, hfe, register_create_phase, create_user,
              create_activation_token, email_taken, id_taken,
              token_user_taken, hem, hid, htk]

lemma register_ok_fresh {s : Store} {email password : String}
    {new_id code_draw : Nat} {now : Int}
    {notifyOutcome : Except RegError Unit} {v : User}
    (hok : (register_user s email password new_id code_draw now
        notifyOutcome).result = Except.ok v) :
    find_by_email s email = none ∧ (∀ u ∈ s.users, u.id ≠ new_id) ∧
    (∀ t ∈ s.tokens, t.user_id ≠ new_id) ∧ notifyOutcome = Except.ok () := by
  cases hfe : find_by_email s email with
  | some u =>
      rw [register_duplicate hfe password new_id code_draw now
        notifyOutcome] at hok
      simp at hok
  | none =>
      have hem : ¬ ∃ x ∈ s.users, x.email = email := by
        rintro ⟨x, hx, hxe⟩
        exact (List.find?_eq_none.1 hfe x hx) (by simp [hxe])
      by_cases hid : ∃ x ∈ s.users, x.id = new_id
      · simp [register_user, hfe, register_create_phase, create_user,
          email_taken, id_taken, hem, hid] at hok
      · by_cases htk : ∃ x ∈ s.tokens, x.user_id = new_id
        · simp [register_user, hfe, register_create_phase, create_user,
            create_activation_token, email_taken, id_taken,
            token_user_taken, hem, hid, htk] at hok
        · cases notifyOutcome with
          | error e =>
              simp [register_user, hfe, register_create_phase, create_user,
                create_activation_token, email_taken, id_taken,
                token_user_taken, hem, hid, htk] at hok
          | ok uu =>
              refine ⟨rfl, ?_, ?_, rfl⟩
              · intro u hu h
                exact hid ⟨u, hu, h⟩
              · intro t ht h
                exact htk ⟨t, ht, h⟩

/-! ### The claims -/

/-- C1: for a user in status PENDING found by email, whose token store holds
a token matching `(user.id, code)`, `activate` succeeds iff
`now - token.created_at ≤ TTL`, where the configured TTL is 900 seconds; the
boundary `age = TTL` is resolved consistently as inclusive (activation
succeeds), and when the age exceeds the TTL the call fails with
`InvalidToken`. -/
theorem activate_expiry_iff (s : Store) (email code : String) (now : Int)
    (u : User) (t : ActivationToken)
    (hu : find_by_email s email = some u)
    (hpend : u.status = UserStatus.PENDING)
    (ht : find_by_user_id_and_code s u.id code = some t) :
    ACTIVATION_TOKEN_TTL_SECONDS = 900
    ∧ ((∃ v, (activate_user s email code now).result = Except.ok v) ↔
        now - t.created_at ≤ ACTIVATION_TOKEN_TTL_SECONDS)
    ∧ (now - t.created_at > ACTIVATION_TOKEN_TTL_SECONDS →
        (activate_user s email code now).result =
          Except.error (RegError.invalidTokenError
            "Activation token has expired.")) := by
  have ha : u.status ≠ UserStatus.ACTIVE := by
    rw [hpend]
    decide
  refine ⟨rfl, ?_, ?_⟩
  · by_cases hexp : now - t.created_at > ACTIVATION_TOKEN_TTL_SECONDS
    · rw [activate_expired hu ha ht hexp]
      constructor
      · rintro ⟨v, hv⟩
        simp at hv
      · intro hle
        exact absurd hle (not_le.2 hexp)
    · rw [activate_success hu ha ht hexp]
      constructor
      · intro _
        exact not_lt.1 hexp
      · intro _
        exact ⟨_, rfl⟩
  · intro hexp
    rw [activate_expired hu ha ht hexp]

/-- A demonstration store for concrete witnesses: one PENDING user with id 1
and email `a@x.com`, holding the activation token `1234` issued at time 0. -/
def demoPending : User :=
  { id := 1,
    email := "a@x.com",
    password_hash := "h",
    status := UserStatus.PENDING,
    created_at := 0,
    updated_at := none }

/-- The activation token of the demonstration store. -/
def demoToken : ActivationToken :=
  { user_id := 1, code := "1234", created_at := 0 }

/-- The demonstration store holding `demoPending` and `demoToken`. -/
def demoStore : Store :=
  { users := [demoPending], tokens := [demoToken] }

/-- Witness for C1: in the demonstration store, a token aged 1000 seconds
(past the 900-second TTL) makes activation fail with the expiry
`InvalidToken` error. -/
theorem activate_expiry_iff_witness :
    (activate_user demoStore "a@x.com" "1234" 1000).result =
      Except.error (RegError.invalidTokenError
        "Activation token has expired.") :=
  (activate_expiry_iff demoStore "a@x.com" "1234" 1000 demoPending demoToken
      rfl rfl rfl).2.2 (by decide)

/-- C2: user status is monotonic — `activate` never moves a stored user's
status backwards (each stored user keeps id and email, and its status only
follows `statusLe`, the reflexive closure of PENDING→ACTIVE); once a user is
ACTIVE, every `activate` call for that email fails with `AlreadyActive`
before any token lookup (the outcome is the same whatever code is presented
and whatever tokens exist, and the store is untouched), never with
`InvalidToken`; and `register_user` only ever returns and persists users
with status PENDING. -/
theorem status_monotonic (s : Store) (email code : String) (now : Int) :
    List.Forall₂
      (fun u v => v.id = u.id ∧ v.email = u.email ∧ statusLe u.status v.status)
      s.users (activate_user s email code now).store.users
    ∧ (∀ u, find_by_email s email = some u →
        u.status = UserStatus.ACTIVE →
        activate_user s email code now =
          { result := Except.error (RegError.userAlreadyActive
              "User account is already active."),
            store := s })
    ∧ (∀ password new_id code_draw notifyOutcome v,
        (register_user s email password new_id code_draw now
          notifyOutcome).result = Except.ok v →
        v.status = UserStatus.PENDING)
    ∧ (∀ password new_id code_draw notifyOutcome v,
        v ∈ (register_user s email password new_id code_draw now
          notifyOutcome).store.users →
        v ∈ s.users ∨ v.status = UserStatus.PENDING) := by
  refine ⟨?_, ?_, ?_, ?_⟩
  · cases hfe : find_by_email s email with
    | none =>
        rw [activate_not_found hfe]
        exact forall₂_refl_users s.users
    | some u =>
        by_cases ha : u.status = UserStatus.ACTIVE
        · rw [activate_already_active hfe ha]
          exact forall₂_refl_users s.users
        · cases ht : find_by_user_id_and_code s u.id code with
          | none =>
              rw [activate_no_token hfe ha ht]
              exact forall₂_refl_users s.users
          | some t =>
              by_cases hexp : now - t.created_at > ACTIVATION_TOKEN_TTL_SECONDS
              · rw [activate_expired hfe ha ht hexp]
                exact forall₂_refl_users s.users
              · rw [activate_success hfe ha ht hexp]
                show List.Forall₂ _ s.users (s.users.map fun v =>
                  if v.id = u.id then
                    { v with status := UserStatus.ACTIVE,
                             updated_at := some now }
                  else v)
                rw [List.forall₂_map_right_iff]
                apply List.forall₂_same.2
                intro v _
                by_cases hvid : v.id = u.id
                · rw [if_pos hvid]
                  exact ⟨rfl, rfl, statusLe_active _⟩
                · rw [if_neg hvid]
                  exact ⟨rfl, rfl, statusLe_refl _⟩
  · intro u hu ha
    exact activate_already_active hu ha
  · intro password new_id code_draw notifyOutcome v hok
    obtain ⟨hfe, hid, htok, hnotify⟩ := register_ok_fresh hok
    subst hnotify
    rw [register_fresh password code_draw now (Except.ok ()) hfe hid htok]
      at hok
    simp only at hok
    rw [Except.ok.injEq] at hok
    rw [← hok]
  · intro password new_id code_draw notifyOutcome v hv
    rcases register_users_cases s email password new_id code_draw now
        notifyOutcome with h | h
    · rw [h] at hv
      exact Or.inl hv
    · rw [h] at hv
      rcases List.mem_append.1 hv with h1 | h2
      · exact Or.inl h1
      · right
        simp only [List.mem_singleton] at h2
        rw [h2]

/-- An ACTIVE variant of the demonstration user, with its already-consumed
state, for exercising the terminal-state branch. -/
def demoActive : User :=
  { demoPending with status := UserStatus.ACTIVE, updated_at := some 5 }

/-- A store whose only user is already ACTIVE but still has a token row. -/
def demoActiveStore : Store :=
  { users := [demoActive], tokens := [demoToken] }

/-- Witness for C2: activating an already ACTIVE user fails with
`AlreadyActive` — even with a code (`9999`) matching no token — and leaves
the store untouched. -/
theorem status_monotonic_witness :
    activate_user demoActiveStore "a@x.com" "9999" 10 =
      { result := Except.error (RegError.userAlreadyActive
          "User account is already active."),
        store := demoActiveStore } :=
  (status_monotonic demoActiveStore "a@x.com" "9999" 10).2.1 demoActive
    rfl rfl

/-- C3: every activation token is single-use — after `activate(email, code)`
returns successfully, and equally after `activate` detects an expired token,
the token store no longer holds any token for that user (deletion is keyed
by `user_id` alone, so a subsequent `find_by_user_id_and_code` for that user
with any code returns none). -/
theorem token_single_use (s : Store) (email code : String) (now : Int)
    (u : User) (hu : find_by_email s email = some u)
    (hres : (∃ v, (activate_user s email code now).result = Except.ok v) ∨
      (activate_user s email code now).result =
        Except.error (RegError.invalidTokenError
          "Activation token has expired.")) :
    ∀ c, find_by_user_id_and_code (activate_user s email code now).store
      u.id c = none := by
  intro c
  by_cases ha : u.status = UserStatus.ACTIVE
  · rw [activate_already_active hu ha] at hres
    rcases hres with ⟨v, hv⟩ | hv <;> simp at hv
  · cases ht : find_by_user_id_and_code s u.id code with
    | none =>
        rw [activate_no_token hu ha ht] at hres
        rcases hres with ⟨v, hv⟩ | hv <;> simp at hv
    | some t =>
        by_cases hexp : now - t.created_at > ACTIVATION_TOKEN_TTL_SECONDS
        · rw [activate_expired hu ha ht hexp]
          exact find_token_delete s u.id c
        · rw [activate_success hu ha ht hexp]
          exact find_token_delete _ u.id c

/-- Witness for C3: after the demonstration user activates successfully at
time 10, no token for user 1 is found, not even under another code. -/
theorem token_single_use_witness :
    find_by_user_id_and_code
      (activate_user demoStore "a@x.com" "1234" 10).store 1 "5678" = none :=
  token_single_use demoStore "a@x.com" "1234" 10 demoPending rfl
    (Or.inl ⟨_, rfl⟩) "5678"

/-- Counterexample for C4: in the demonstration store at time 1000 the
correct code `1234` is expired and yields the client-visible detail
`Activation token has expired.`, while the wrong code `9999` yields
`Invalid email or activation code.` — the two messages differ, so expiry is
not reported to the client with the same generic message as a wrong code. -/
theorem expiry_message_leaks :
    (activate_http (activate_user demoStore "a@x.com" "1234" 1000).result).2 =
      "Activation token has expired."
    ∧ (activate_http (activate_user demoStore "a@x.com" "9999" 1000).result).2 =
      "Invalid email or activation code."
    ∧ "Activation token has expired." ≠ "Invalid email or activation code." :=
  ⟨rfl, rfl, by decide⟩

/-- C4 (amended): an unregistered email, a non-matching `(user_id, code)`
pair, and an expired code all fail with the same `InvalidToken` error class,
which the API maps to the same HTTP 400 status; the expired-token path,
however, carries the distinct detail `Activation token has expired.` rather
than the generic `Invalid email or activation code.` of the other two, so
expiry is distinguishable client-side by message (not only internally). -/
theorem invalid_token_merging (s : Store) (email code : String) (now : Int) :
    (find_by_email s email = none →
      activate_http (activate_user s email code now).result =
        (400, "Invalid email or activation code."))
    ∧ (∀ u, find_by_email s email = some u →
        u.status ≠ UserStatus.ACTIVE →
        find_by_user_id_and_code s u.id code = none →
        activate_http (activate_user s email code now).result =
          (400, "Invalid email or activation code."))
    ∧ (∀ u t, find_by_email s email = some u →
        u.status ≠ UserStatus.ACTIVE →
        find_by_user_id_and_code s u.id code = some t →
        now - t.created_at > ACTIVATION_TOKEN_TTL_SECONDS →
        activate_http (activate_user s email code now).result =
          (400, "Activation token has expired.")) := by
  refine ⟨?_, ?_, ?_⟩
  · intro h
    rw [activate_not_found h]
    rfl
  · intro u hu ha ht
    rw [activate_no_token hu ha ht]
    rfl
  · intro u t hu ha ht hexp
    rw [activate_expired hu ha ht hexp]
    rfl

/-- Witness for C4 (amended): an unregistered email on the empty store is
answered with HTTP 400 and the generic detail. -/
theorem invalid_token_merging_witness :
    activate_http (activate_user { users := [], tokens := [] }
        "ghost@x.com" "1234" 0).result =
      (400, "Invalid email or activation code.") :=
  (invalid_token_merging { users := [], tokens := [] }
    "ghost@x.com" "1234" 0).1 rfl

/-- C5: for every email that already has a user in the store,
`register_user` fails with `AlreadyExists` and performs no side effects —
the store is returned unchanged (no second user row, no hash stored, no
activation token persisted) and the notify callback is never invoked; and
registering twice with the same email therefore always yields
`AlreadyExists` on the second call. -/
theorem register_duplicate_no_side_effects (s : Store)
    (email password : String) (new_id code_draw : Nat) (now : Int)
    (notifyOutcome : Except RegError Unit) :
    (∀ u, find_by_email s email = some u →
      register_user s email password new_id code_draw now notifyOutcome =
        { result := Except.error (RegError.userAlreadyExists
            "An account with this email already exists."),
          store := s, notified := [] })
    ∧ (∀ v, (register_user s email password new_id code_draw now
          notifyOutcome).result = Except.ok v →
        ∀ password₂ new_id₂ code_draw₂ now₂ notifyOutcome₂,
          register_user (register_user s email password new_id code_draw now
              notifyOutcome).store email password₂ new_id₂ code_draw₂ now₂
              notifyOutcome₂ =
            { result := Except.error (RegError.userAlreadyExists
                "An account with this email already exists."),
              store := (register_user s email password new_id code_draw now
                notifyOutcome).store,
              notified := [] }) := by
  constructor
  · intro u hu
    exact register_duplicate hu password new_id code_draw now notifyOutcome
  · intro v hok password₂ new_id₂ code_draw₂ now₂ notifyOutcome₂
    obtain ⟨hfe, hid, htok, hnotify⟩ := register_ok_fresh hok
    subst hnotify
    rw [register_fresh password code_draw now (Except.ok ()) hfe hid htok]
    exact register_duplicate (find_by_email_append _ hfe rfl) password₂
      new_id₂ code_draw₂ now₂ notifyOutcome₂

/-- Witness for C5: registering the demonstration store's email again fails
with `AlreadyExists`, leaves the store unchanged, and notifies nobody. -/
theorem register_duplicate_no_side_effects_witness :
    register_user demoStore "a@x.com" "Pw1" 2 7 0 (Except.ok ()) =
      { result := Except.error (RegError.userAlreadyExists
          "An account with this email already exists."),
        store := demoStore, notified := [] } :=
  (register_duplicate_no_side_effects demoStore "a@x.com" "Pw1" 2 7 0
      (Except.ok ())).1 demoPending rfl

/-- C6: cross-user isolation — a valid, unexpired code belonging to user A
never activates user B, even when the two users' codes are equal in value,
because the token lookup in `activate` is scoped by `user_id` AND `code`
together: whenever B (pending, found by email) has no token of its own with
the presented code, activation fails with `InvalidToken` and leaves the
store unchanged, despite A's matching unexpired token being present; and
any token the lookup returns for B carries exactly B's `user_id` together
with the presented code, never a match on code alone. -/
theorem cross_user_isolation (s : Store) (emailB code : String) (now : Int)
    (uB : User) (tA : ActivationToken)
    (hB : find_by_email s emailB = some uB)
    (hBstatus : uB.status ≠ UserStatus.ACTIVE)
    (hA : tA ∈ s.tokens) (hAcode : tA.code = code)
    (hAother : tA.user_id ≠ uB.id)
    (hAfresh : now - tA.created_at ≤ ACTIVATION_TOKEN_TTL_SECONDS)
    (hnoB : ∀ t ∈ s.tokens, t.user_id = uB.id → t.code ≠ code) :
    activate_user s emailB code now =
      { result := Except.error (RegError.invalidTokenError
          "Invalid email or activation code."),
        store := s }
    ∧ (∀ t₂, find_by_user_id_and_code s uB.id code = some t₂ →
        t₂.user_id = uB.id ∧ t₂.code = code) := by
  constructor
  · exact activate_no_token hB hBstatus (find_token_eq_none hnoB)
  · intro t₂ ht₂
    exact (find_token_some ht₂).2

/-- A second, pending demonstration user with id 2 and no token of its own. -/
def demoUserB : User :=
  { id := 2,
    email := "b@x.com",
    password_hash := "h2",
    status := UserStatus.PENDING,
    created_at := 0,
    updated_at := none }

/-- A store with two users where only user 1 holds a token (code `1234`). -/
def demoTwoUserStore : Store :=
  { users := [demoPending, demoUserB], tokens := [demoToken] }

/-- Witness for C6: user 1's valid unexpired code `1234` does not activate
user 2 — the call fails with the generic `InvalidToken` error. -/
theorem cross_user_isolation_witness :
    activate_user demoTwoUserStore "b@x.com" "1234" 10 =
      { result := Except.error (RegError.invalidTokenError
          "Invalid email or activation code."),
        store := demoTwoUserStore } :=
  (cross_user_isolation demoTwoUserStore "b@x.com" "1234" 10 demoUserB
      demoToken rfl (by decide) (by decide) rfl (by decide) (by decide)
      (by decide)).1

/-- C7: for every email with no existing user, `register_user` returns the
created user with status PENDING and persists an activation token whose
code is a fixed-width 4-character numeric string (zero-padded, hence in
`0000`-`9999`), such that an immediate `find_by_user_id_and_code` with the
created user's id and the freshly generated code finds the token and
matches it exactly. -/
theorem register_round_trip (s : Store) (email password : String)
    (new_id code_draw : Nat) (now : Int)
    (hfree : find_by_email s email = none)
    (hid : ∀ u ∈ s.users, u.id ≠ new_id)
    (htok : ∀ t ∈ s.tokens, t.user_id ≠ new_id)
    (hdraw : code_draw < 10 ^ CODE_LENGTH) :
    ∃ u, (register_user s email password new_id code_draw now
        (Except.ok ())).result = Except.ok u
      ∧ u.status = UserStatus.PENDING ∧ u.email = email
      ∧ (generate_activation_code code_draw CODE_LENGTH).length = 4
      ∧ (∀ c ∈ (generate_activation_code code_draw CODE_LENGTH).data,
          c.isDigit = true)
      ∧ find_by_user_id_and_code
          (register_user s email password new_id code_draw now
            (Except.ok ())).store
          u.id (generate_activation_code code_draw CODE_LENGTH) =
        some { user_id := u.id,
               code := generate_activation_code code_draw CODE_LENGTH,
               created_at := now } := by
  rw [register_fresh password code_draw now (Except.ok ()) hfree hid htok]
  refine ⟨_, rfl, rfl, rfl, generate_activation_code_length hdraw,
    generate_activation_code_digits code_draw, ?_⟩
  exact find_token_append _ htok rfl rfl

/-- Witness for C7: registering `a@x.com` in the empty store with id 1 and
random draw 7 yields a PENDING user; the generated code is `0007`-shaped
(4 digits), and the round-trip lookup finds the persisted token. -/
theorem register_round_trip_witness :
    ∃ u, (register_user { users := [], tokens := [] } "a@x.com" "Pw1" 1 7 0
        (Except.ok ())).result = Except.ok u
      ∧ u.status = UserStatus.PENDING ∧ u.email = "a@x.com"
      ∧ (generate_activation_code 7 CODE_LENGTH).length = 4
      ∧ (∀ c ∈ (generate_activation_code 7 CODE_LENGTH).data,
          c.isDigit = true)
      ∧ find_by_user_id_and_code
          (register_user { users := [], tokens := [] } "a@x.com" "Pw1" 1 7 0
            (Except.ok ())).store
          u.id (generate_activation_code 7 CODE_LENGTH) =
        some { user_id := u.id,
               code := generate_activation_code 7 CODE_LENGTH,
               created_at := 0 } :=
  register_round_trip { users := [], tokens := [] } "a@x.com" "Pw1" 1 7 0
    rfl (by simp) (by simp) (by decide)

/-- Counterexample for C8: starting from the empty store, with a racer
inserting `a@x.com` between the duplicate check and the engine's own
insert, `register_user_raced` fails with the repository's `ValueError`,
which the endpoint maps to HTTP 500 — while the normal duplicate path
returns `UserAlreadyExists`, mapped to 409.  The race therefore does not
surface as the same `AlreadyExists` condition as the normal duplicate
path. -/
theorem race_not_already_exists :
    (register_user_raced { users := [], tokens := [] } demoPending "a@x.com"
        "Pw1" 2 7 0 (Except.ok ())).result =
      Except.error (RegError.valueError
        "User with email a@x.com already exists")
    ∧ register_http_status (register_user_raced { users := [], tokens := [] }
        demoPending "a@x.com" "Pw1" 2 7 0 (Except.ok ())).result = 500
    ∧ register_http_status (register_user demoStore "a@x.com" "Pw1" 2 7 0
        (Except.ok ())).result = 409
    ∧ (500 : Nat) ≠ 409 :=
  ⟨rfl, rfl, rfl, by decide⟩

/-- C8 (amended): when a concurrent create for the same email lands between
the engine's duplicate check and its own `create_user` call, the store's
uniqueness rejection surfaces as the repository's
`ValueError("User with email ... already exists")`, which the service does
not translate into `UserAlreadyExists`; the `/register` endpoint therefore
maps the raced failure to a generic 500 internal error, not to the 409
`AlreadyExists` condition of the normal duplicate path. -/
theorem race_maps_to_internal_error (s : Store) (racer : User)
    (email password : String) (new_id code_draw : Nat) (now : Int)
    (notifyOutcome : Except RegError Unit)
    (hfree : find_by_email s email = none) (hracer : racer.email = email) :
    (register_user_raced s racer email password new_id code_draw now
        notifyOutcome).result =
      Except.error (RegError.valueError
        ("User with email " ++ email ++ " already exists"))
    ∧ register_http_status (register_user_raced s racer email password
        new_id code_draw now notifyOutcome).result = 500
    ∧ (∀ u, find_by_email s email = some u →
        register_http_status (register_user s email password new_id
          code_draw now notifyOutcome).result = 409) := by
  have hex : ∃ x ∈ s.users ++ [racer], x.email = email :=
    ⟨racer, by simp, hracer⟩
  have hres : (register_user_raced s racer email password new_id code_draw
      now notifyOutcome).result =
      Except.error (RegError.valueError
        ("User with email " ++ email ++ " already exists")) := by
    simp [register_user_raced, hfree, register_create_phase, create_user,
      email_taken, id_taken, hex, hracer]
  refine ⟨hres, ?_, ?_⟩
  · rw [hres]
    rfl
  · intro u hu
    rw [register_duplicate hu password new_id code_draw now notifyOutcome]
    rfl

/-- Witness for C8 (amended): the concrete race on the empty store is
answered with HTTP 500. -/
theorem race_maps_to_internal_error_witness :
    register_http_status (register_user_raced { users := [], tokens := [] }
        demoPending "a@x.com" "Pw1" 2 7 0 (Except.ok ())).result = 500 :=
  (race_maps_to_internal_error { users := [], tokens := [] } demoPending
      "a@x.com" "Pw1" 2 7 0 (Except.ok ()) rfl rfl).2.1

/-- Counterexample for C9: registering a fresh email (a successful path:
with a well-behaved callback, the same call returns the created user)
while the notify callback raises makes `register_user` itself fail with
the callback's error — the engine invokes the callback with no handler, so
a failure raised by the notify callback is propagated as a registration
failure. -/
theorem notify_failure_propagates :
    (∃ v, (register_user { users := [], tokens := [] } "a@x.com" "Pw1" 1 7 0
        (Except.ok ())).result = Except.ok v)
    ∧ (register_user { users := [], tokens := [] } "a@x.com" "Pw1" 1 7 0
        (Except.error (RegError.notifyFailure "smtp down"))).result =
      Except.error (RegError.notifyFailure "smtp down") :=
  ⟨⟨_, rfl⟩, rfl⟩

/-- C9 (amended): in the deployed endpoint the notify callback passed to
the engine only enqueues the email send and cannot fail, and the enqueued
send runs only after the response is produced — so the `/register`
response status and the resulting store are independent of the email
service's outcome, and the response equals what the engine's result alone
determines: the email service's failure is never propagated as a
registration failure.  (An error raised by the callback itself, by
contrast, would propagate out of the engine, which calls it unguarded.) -/
theorem register_notifier_fire_and_forget (s : Store)
    (email password : String) (new_id code_draw : Nat) (now : Int)
    (a b : Bool) :
    (register_endpoint s email password new_id code_draw now a).status =
      (register_endpoint s email password new_id code_draw now b).status
    ∧ (register_endpoint s email password new_id code_draw now a).store =
      (register_endpoint s email password new_id code_draw now b).store
    ∧ (register_endpoint s email password new_id code_draw now a).status =
      register_http_status (register_user s email password new_id code_draw
        now (Except.ok ())).result :=
  ⟨rfl, rfl, rfl⟩

lemma register_fresh_store_users {s : Store} {email password : String}
    {new_id : Nat} (code_draw : Nat) (now : Int)
    (notifyOutcome : Except RegError Unit)
    (hfree : find_by_email s email = none)
    (hid : ∀ u ∈ s.users, u.id ≠ new_id) :
    (register_user s email password new_id code_draw now
        notifyOutcome).store.users =
      s.users ++
        [{ id := new_id,
           email := email,
           password_hash := hash_password password,
           status := UserStatus.PENDING,
           created_at := now,
           updated_at := none }] := by
  have hem : ¬ ∃ x ∈ s.users, x.email = email := by
    rintro ⟨x, hx, hxe⟩
    exact (List.find?_eq_none.1 hfree x hx) (by simp [hxe])
  have hid2 : ¬ ∃ x ∈ s.users, x.id = new_id := by
    rintro ⟨x, hx, hxe⟩
    exact hid x hx hxe
  by_cases htk : ∃ x ∈ s.tokens, x.user_id = new_id
  · simp [register_user, hfree, register_create_phase, create_user,
      create_activation_token, email_taken, id_taken, token_user_taken,
      hem, hid2, htk]
  · cases notifyOutcome <;>
      simp [register_user, hfree, register_create_phase, create_user,
        create_activation_token, email_taken, id_taken, token_user_taken,
        hem, hid2, htk]

/-- C10: `register_user` is not atomic across its steps — if it raises for
a fresh email and a fresh id (a failure that can only come after the user
row has been created, e.g. the activation-token persist or the notify
callback failing), the created PENDING user remains in the user store: a
subsequent `find_by_email` returns that user, and any retried registration
for the same email fails with `AlreadyExists`. -/
theorem register_not_atomic (s : Store) (email password : String)
    (new_id code_draw : Nat) (now : Int)
    (notifyOutcome : Except RegError Unit) (e : RegError)
    (hfree : find_by_email s email = none)
    (hid : ∀ u ∈ s.users, u.id ≠ new_id)
    (herr : (register_user s email password new_id code_draw now
        notifyOutcome).result = Except.error e) :
    (∃ u, find_by_email (register_user s email password new_id code_draw
        now notifyOutcome).store email = some u
      ∧ u.status = UserStatus.PENDING ∧ u.email = email)
    ∧ (∀ password₂ new_id₂ code_draw₂ now₂ notifyOutcome₂,
        (register_user (register_user s email password new_id code_draw
            now notifyOutcome).store email password₂ new_id₂ code_draw₂
            now₂ notifyOutcome₂).result =
          Except.error (RegError.userAlreadyExists
            "An account with this email already exists.")) := by
  have husers := @register_fresh_store_users s email password new_id
    code_draw now notifyOutcome hfree hid
  have h0 : s.users.find? (fun u => u.email == email) = none := hfree
  have hfound : find_by_email (register_user s email password new_id
      code_draw now notifyOutcome).store email = some
      { id := new_id,
        email := email,
        password_hash := hash_password password,
        status := UserStatus.PENDING,
        created_at := now,
        updated_at := none } := by
    simp only [find_by_email]
    rw [husers, List.find?_append, h0]
    simp
  constructor
  · exact ⟨_, hfound, rfl, rfl⟩
  · intro password₂ new_id₂ code_draw₂ now₂ notifyOutcome₂
    rw [register_duplicate hfound password₂ new_id₂ code_draw₂ now₂
      notifyOutcome₂]

/-- Witness for C10: on the empty store, a registration whose notify
callback raises leaves the PENDING user behind, and the retried
registration fails with `AlreadyExists`. -/
theorem register_not_atomic_witness :
    (register_user (register_user { users := [], tokens := [] } "a@x.com"
        "Pw1" 1 7 0 (Except.error (RegError.notifyFailure
          "smtp down"))).store
      "a@x.com" "Pw2" 2 8 5 (Except.ok ())).result =
      Except.error (RegError.userAlreadyExists
        "An account with this email already exists.") :=
  (register_not_atomic { users := [], tokens := [] } "a@x.com" "Pw1" 1 7 0
      (Except.error (RegError.notifyFailure "smtp down"))
      (RegError.notifyFailure "smtp down") rfl (by simp) rfl).2
    "Pw2" 2 8 5 (Except.ok ())

end Registration
